import Mathlib

/-!
Verification of the tile composer/orchestrator of the mapserver repository
(package `tilerenderer`, file `renderer.go`), shallowly embedded in Lean.

The embedding follows the Go source line by line.  External collaborators
(the persistent tile cache `tiledb.DBAccessor`, the leaf renderer
`mapblockrenderer.MapBlockRenderer`, the PNG codec and the Lanczos resizer
of the `imaging` package) are modelled as fields of an environment record
`Env`; the observable I/O of one request (cache reads, cache writes, leaf
renderer invocations, recursive render entries) is collected in an event
list so that statements about "which I/O happened, in which order" can be
made precise.

The repository pins the toolchain to the `golang:1.16.0` image
(docker-compose.yml), so the range-loop variable semantics of Go before
1.22 apply: in the layer lookup loop of `RenderImage`, `layer = &l` stores
the address of the single per-loop variable `l`, and after the loop the
pointer observes the last element of the slice, not the matched element.
The embedding `findLayerLoop` reproduces exactly that behaviour.
-/

namespace Mapserver

/-- Tile coordinates, `coords.TileCoords`: layer id, zoom and grid position. -/
structure TileCoords where
  X : Int
  Y : Int
  Zoom : Int
  LayerId : Int
deriving DecidableEq, Repr

/-- Map block coordinates, `coords.MapBlockCoords`. -/
structure MapBlockCoords where
  X : Int
  Y : Int
  Z : Int
deriving DecidableEq, Repr

/-- A pair of block positions bounding a spatial volume, `coords.MapBlockRange`. -/
structure MapBlockRange where
  Pos1 : MapBlockCoords
  Pos2 : MapBlockCoords
deriving DecidableEq, Repr

/-- A layer descriptor, `layer.Layer`: id and vertical bounds. -/
structure Layer where
  Id : Int
  From : Int
  To : Int
deriving DecidableEq, Repr

/-- A raster image as a pixel function; the value `0` is the zero
(transparent) NRGBA pixel that `image.NewNRGBA` initialises with. -/
structure Img where
  px : Int → Int → Nat

/-- The fixed tile size, constant `IMG_SIZE` of `renderer.go`. -/
def IMG_SIZE : Int := 256

/-- A fresh all-zero raster, `image.NewNRGBA(rect)`. -/
def newNRGBA : Img := ⟨fun _ _ => 0⟩

/-- An integer rectangle, `image.Rectangle` with min and max corners. -/
structure Rect where
  MinX : Int
  MinY : Int
  MaxX : Int
  MaxY : Int
deriving DecidableEq, Repr

/-- Source-over-destination copy, `draw.Draw(dst, r, src, image.ZP, draw.Src)`:
inside `r` the destination pixel is replaced by the source pixel read from
the origin-aligned position, outside `r` the destination is untouched. -/
def drawSrc (dst : Img) (r : Rect) (src : Img) : Img :=
  ⟨fun x y =>
    if r.MinX ≤ x ∧ x < r.MaxX ∧ r.MinY ≤ y ∧ y < r.MaxY then
      src.px (x - r.MinX) (y - r.MinY)
    else dst.px x y⟩

/-- A cache entry, `tiledb.Tile`: address, encoded bytes and mtime. -/
structure Tile where
  Pos : TileCoords
  Data : List Nat
  Mtime : Int
deriving DecidableEq, Repr

/-- The persistent tile cache content, newest entry first; `SetTile`
prepends, `GetTile` takes the first entry for the address. -/
def Cache := List (TileCoords × Tile)

instance : DecidableEq Cache := by
  unfold Cache; infer_instance

/-- Observable I/O events of one render request. -/
inductive Ev where
  /-- A cache lookup (`tdb.GetTile`) for an address. -/
  | read (tc : TileCoords) : Ev
  /-- A cache write attempt (`tdb.SetTile`) for an address. -/
  | write (tc : TileCoords) : Ev
  /-- A leaf renderer invocation (`mapblockrenderer.Render`) on a volume. -/
  | leaf (pos1 pos2 : MapBlockCoords) : Ev
  /-- Entry into `RenderImage` for an address with a cache-only flag. -/
  | call (tc : TileCoords) (cachedOnly : Bool) : Ev
deriving DecidableEq, Repr

/-- The four child addresses of a tile, one zoom level finer.
Modelled from the spec: `coords.GetZoomedQuadrantsFromTile` is not under
src/; the spec says the four children sit at zoom+1 and quadrant-subdivide
the parent tile, so the standard quadtree subdivision is used. -/
structure Quads where
  UpperLeft : TileCoords
  UpperRight : TileCoords
  LowerLeft : TileCoords
  LowerRight : TileCoords
deriving DecidableEq, Repr

/-- Modelled from the spec: derivation of the four quadrant child
addresses at zoom+1 (`coords.GetZoomedQuadrantsFromTile`, not under src/). -/
def GetZoomedQuadrantsFromTile (tc : TileCoords) : Quads :=
  { UpperLeft := { tc with Zoom := tc.Zoom + 1, X := 2 * tc.X, Y := 2 * tc.Y }
    UpperRight := { tc with Zoom := tc.Zoom + 1, X := 2 * tc.X + 1, Y := 2 * tc.Y }
    LowerLeft := { tc with Zoom := tc.Zoom + 1, X := 2 * tc.X, Y := 2 * tc.Y + 1 }
    LowerRight := { tc with Zoom := tc.Zoom + 1, X := 2 * tc.X + 1, Y := 2 * tc.Y + 1 } }

/-- The environment of the tile renderer: the layer list of the
`TileRenderer` struct together with the external collaborators. -/
structure Env where
  /-- The configured layers, field `layers` of `TileRenderer`. -/
  layers : List Layer
  /-- The leaf renderer, `mapblockrenderer.Render(pos1, pos2)`:
  may fail, may report an empty (nil) raster. -/
  leafRender : MapBlockCoords → MapBlockCoords → Except String (Option Img)
  /-- The PNG encoder, `png.Encode`, as a deterministic black box. -/
  pngEncode : Img → List Nat
  /-- The PNG decoder, `png.Decode`; corrupt bytes yield an error. -/
  pngDecode : List Nat → Except String Img
  /-- The downsampler, `imaging.Resize(img, 128, 128, imaging.Lanczos)`,
  as a deterministic black box. -/
  resize128 : Img → Img
  /-- Modelled from the spec: `coords.GetMapBlockRangeFromTile(tc, 0)` is
  not under src/; the spatial volume covered by a tile address is kept
  abstract. -/
  mapBlockRange : TileCoords → MapBlockRange
  /-- Injected failures of `tdb.GetTile`. -/
  getErr : TileCoords → Option String
  /-- Injected failure of `tdb.SetTile`: when true every write fails and
  stores nothing; `RenderImage` discards the returned error either way. -/
  setFails : Bool
  /-- The clock, `time.Now().Unix()`. -/
  now : Int

/-- First cache entry for an address, the lookup of `tdb.GetTile`. -/
def cacheFind (c : Cache) (tc : TileCoords) : Option Tile :=
  (List.find? (fun p => p.1 = tc) c).map Prod.snd

/-- The layer lookup loop of `RenderImage` under Go 1.16 semantics:
the loop `for _, l := range tr.layers { if l.Id == tc.LayerId { layer = &l } }`
assigns the address of the single loop variable `l`, so after the loop a
non-nil `layer` dereferences to the final element of the slice, and it is
non-nil exactly when some element matched. -/
def findLayerLoop (layers : List Layer) (lid : Int) : Option Layer :=
  if layers.any (fun l => l.Id = lid) then layers.getLast? else none

/-- The full-tile rectangle used when a cached tile is decoded and drawn
into a fresh raster. -/
def fullRect : Rect := ⟨0, 0, IMG_SIZE, IMG_SIZE⟩

/-- Decoded cached image, redrawn into a fresh 256-square raster
(`image.NewNRGBA` then `draw.Draw` over the full rectangle). -/
def clip256 (i : Img) : Img := drawSrc newNRGBA fullRect i

/-- One quadrant composition step: an empty child leaves the destination
untouched, a non-empty child is downsampled and drawn into the rectangle. -/
def drawQuadrant (env : Env) (dst : Img) (r : Rect) (child : Option Img) : Img :=
  match child with
  | none => dst
  | some c => drawSrc dst r (env.resize128 c)

/-- The composition of the four child results into one 256-square raster,
in the order the Go code draws them: upper left, upper right, lower left,
lower right, into the four fixed quadrant rectangles. -/
def composeImg (env : Env) (ul ur ll lr : Option Img) : Img :=
  drawQuadrant env
    (drawQuadrant env
      (drawQuadrant env
        (drawQuadrant env newNRGBA ⟨0, 0, 128, 128⟩ ul)
        ⟨128, 0, 256, 128⟩ ur)
      ⟨0, 128, 128, 256⟩ ll)
    ⟨128, 128, 256, 256⟩ lr

/-- Cache lookup `tdb.GetTile(tc)` with its read event. -/
def getTile (env : Env) (tc : TileCoords) (c : Cache) :
    Except String (Option Tile) :=
  match env.getErr tc with
  | some e => Except.error e
  | none => Except.ok (cacheFind c tc)

/-- Cache write `tdb.SetTile(&tile)`: a failing write stores nothing; the
caller ignores the returned error in either case. -/
def setTile (env : Env) (t : Tile) (c : Cache) : Cache :=
  if env.setFails then c else (t.Pos, t) :: c

/-- The recursive render operation `TileRenderer.RenderImage` of
`renderer.go`, embedded step by step: cache probe, cache-only
short-circuit, layer lookup, zoom validation, leaf delegation at zoom 13,
and the recursive quadrant composition with cache write-back at zoom 1-12.
Returns the result, the cache after the call, and the I/O events of the
call in order. -/
def RenderImage (env : Env) (tc : TileCoords) (cachedOnly : Bool) (c : Cache) :
    Except String (Option Img) × Cache × List Ev :=
  match getTile env tc c with
  | Except.error e => (Except.error e, c, [Ev.call tc cachedOnly, Ev.read tc])
  | Except.ok (some cachedtile) =>
    (match env.pngDecode cachedtile.Data with
     | Except.error e => (Except.error e, c, [Ev.call tc cachedOnly, Ev.read tc])
     | Except.ok cachedimg =>
       (Except.ok (some (clip256 cachedimg)), c, [Ev.call tc cachedOnly, Ev.read tc]))
  | Except.ok none =>
    if cachedOnly then
      (Except.ok none, c, [Ev.call tc cachedOnly, Ev.read tc])
    else
      match findLayerLoop env.layers tc.LayerId with
      | none => (Except.error "No layer found", c, [Ev.call tc cachedOnly, Ev.read tc])
      | some layer =>
        if hbad : tc.Zoom > 13 ∨ tc.Zoom < 1 then
          (Except.error "Invalid zoom", c, [Ev.call tc cachedOnly, Ev.read tc])
        else if h13 : tc.Zoom = 13 then
          let mbr := env.mapBlockRange tc
          let pos1 : MapBlockCoords := { mbr.Pos1 with Y := layer.From }
          let pos2 : MapBlockCoords := { mbr.Pos2 with Y := layer.To }
          (env.leafRender pos1 pos2, c,
            [Ev.call tc cachedOnly, Ev.read tc, Ev.leaf pos1 pos2])
        else
          let quads := GetZoomedQuadrantsFromTile tc
          let rco : Bool := tc.Zoom < 12
          match RenderImage env quads.UpperLeft rco c with
          | (Except.error e, c1, ev1) =>
            (Except.error e, c1, [Ev.call tc cachedOnly, Ev.read tc] ++ ev1)
          | (Except.ok ul, c1, ev1) =>
            match RenderImage env quads.UpperRight rco c1 with
            | (Except.error e, c2, ev2) =>
              (Except.error e, c2, [Ev.call tc cachedOnly, Ev.read tc] ++ ev1 ++ ev2)
            | (Except.ok ur, c2, ev2) =>
              match RenderImage env quads.LowerLeft rco c2 with
              | (Except.error e, c3, ev3) =>
                (Except.error e, c3,
                  [Ev.call tc cachedOnly, Ev.read tc] ++ ev1 ++ ev2 ++ ev3)
              | (Except.ok ll, c3, ev3) =>
                match RenderImage env quads.LowerRight rco c3 with
                | (Except.error e, c4, ev4) =>
                  (Except.error e, c4,
                    [Ev.call tc cachedOnly, Ev.read tc] ++ ev1 ++ ev2 ++ ev3 ++ ev4)
                | (Except.ok lr, c4, ev4) =>
                  let img := composeImg env ul ur ll lr
                  let tile : Tile :=
                    { Pos := tc, Data := env.pngEncode img, Mtime := env.now }
                  (Except.ok (some img), setTile env tile c4,
                    [Ev.call tc cachedOnly, Ev.read tc] ++ ev1 ++ ev2 ++ ev3 ++ ev4
                      ++ [Ev.write tc])
termination_by (13 - tc.Zoom).toNat
decreasing_by
  all_goals simp only [GetZoomedQuadrantsFromTile]; omega

/-- The top-level encoded render operation `TileRenderer.Render` of
`renderer.go`: cache probe, then on a miss the fresh render, the empty
sentinel for a nil raster, and the PNG encode of a non-nil raster. -/
def Render (env : Env) (tc : TileCoords) (c : Cache) :
    Except String (Option (List Nat)) × Cache × List Ev :=
  match getTile env tc c with
  | Except.error e => (Except.error e, c, [Ev.read tc])
  | Except.ok (some tile) => (Except.ok (some tile.Data), c, [Ev.read tc])
  | Except.ok none =>
    match RenderImage env tc false c with
    | (Except.error e, c1, ev1) => (Except.error e, c1, Ev.read tc :: ev1)
    | (Except.ok none, c1, ev1) => (Except.ok none, c1, Ev.read tc :: ev1)
    | (Except.ok (some img), c1, ev1) =>
      (Except.ok (some (env.pngEncode img)), c1, Ev.read tc :: ev1)


/-- The result of a pure cache probe: the value a render call returns when
it never goes past the cache lookup (error, decoded hit, or clean miss). -/
def cacheProbe (env : Env) (tc : TileCoords) (c : Cache) :
    Except String (Option Img) :=
  match getTile env tc c with
  | Except.error e => Except.error e
  | Except.ok (some t) =>
    (match env.pngDecode t.Data with
     | Except.error e => Except.error e
     | Except.ok i => Except.ok (some (clip256 i)))
  | Except.ok none => Except.ok none

/-- The leaf volume handed to the leaf renderer for a zoom-13 tile: the
tile's block range with the vertical extent replaced by the layer bounds. -/
def leafVolume (env : Env) (tc : TileCoords) (l : Layer) :
    MapBlockCoords × MapBlockCoords :=
  ({ (env.mapBlockRange tc).Pos1 with Y := l.From },
   { (env.mapBlockRange tc).Pos2 with Y := l.To })

/-- The quadrant recursion and write-back step of `RenderImage`, factored
out as a non-recursive wrapper: the four child calls at the next zoom with
the `tc.Zoom < 12` cache-only flag, error propagation in order, and the
compose-encode-write tail. -/
def composeStep (env : Env) (tc : TileCoords) (b : Bool) (c : Cache) :
    Except String (Option Img) × Cache × List Ev :=
  let quads := GetZoomedQuadrantsFromTile tc
  let rco : Bool := tc.Zoom < 12
  match RenderImage env quads.UpperLeft rco c with
  | (Except.error e, c1, ev1) =>
    (Except.error e, c1, [Ev.call tc b, Ev.read tc] ++ ev1)
  | (Except.ok ul, c1, ev1) =>
    match RenderImage env quads.UpperRight rco c1 with
    | (Except.error e, c2, ev2) =>
      (Except.error e, c2, [Ev.call tc b, Ev.read tc] ++ ev1 ++ ev2)
    | (Except.ok ur, c2, ev2) =>
      match RenderImage env quads.LowerLeft rco c2 with
      | (Except.error e, c3, ev3) =>
        (Except.error e, c3, [Ev.call tc b, Ev.read tc] ++ ev1 ++ ev2 ++ ev3)
      | (Except.ok ll, c3, ev3) =>
        match RenderImage env quads.LowerRight rco c3 with
        | (Except.error e, c4, ev4) =>
          (Except.error e, c4,
            [Ev.call tc b, Ev.read tc] ++ ev1 ++ ev2 ++ ev3 ++ ev4)
        | (Except.ok lr, c4, ev4) =>
          let img := composeImg env ul ur ll lr
          let tile : Tile :=
            { Pos := tc, Data := env.pngEncode img, Mtime := env.now }
          (Except.ok (some img), setTile env tile c4,
            [Ev.call tc b, Ev.read tc] ++ ev1 ++ ev2 ++ ev3 ++ ev4
              ++ [Ev.write tc])

/-- Event classifier: cache write attempts. -/
def Ev.isWrite : Ev → Bool
  | Ev.write _ => true
  | _ => false

/-- Event classifier: leaf renderer invocations. -/
def Ev.isLeaf : Ev → Bool
  | Ev.leaf _ _ => true
  | _ => false

/-- A concrete environment with one registered layer (id 0), an empty leaf
renderer, a constant PNG encoder and a decoder that always succeeds. -/
def env0 : Env :=
  { layers := [{ Id := 0, From := -50, To := 100 }]
    leafRender := fun _ _ => Except.ok none
    pngEncode := fun _ => [7]
    pngDecode := fun _ => Except.ok newNRGBA
    resize128 := fun i => i
    mapBlockRange := fun _ => ⟨⟨0, 0, 0⟩, ⟨0, 0, 0⟩⟩
    getErr := fun _ => none
    setFails := false
    now := 42 }

/-- The two-layer registry of the C6 scenario: the requested address's
layer id 1 matches the first layer (bounds 10..20); the second layer
(id 2, bounds 30..40) is last in the list. -/
def envC6 : Env :=
  { env0 with layers := [{ Id := 1, From := 10, To := 20 },
                         { Id := 2, From := 30, To := 40 }] }

/-- A leaf renderer that reports a raster for every volume. -/
def envLeaf : Env :=
  { env0 with leafRender := fun _ _ => Except.ok (some newNRGBA) }

/-- A plain cache entry used to warm the cache in witnesses. -/
def tileW : Tile := { Pos := ⟨0, 0, 5, 0⟩, Data := [3], Mtime := 9 }

/-- A quadrant of a raster is blank when all its pixels are the zero
(transparent) value. -/
def quadrantBlank (img : Img) (qx qy : Int) : Prop :=
  ∀ x y : Int, 0 ≤ x → x < 128 → 0 ≤ y → y < 128 → img.px (qx + x) (qy + y) = 0

/-- A legitimate downsampler (2x2 point subsampling), which like any
correct resampler maps an all-zero raster to an all-zero raster. -/
def envC7 : Env :=
  { env0 with resize128 := fun i => ⟨fun x y => i.px (2 * x) (2 * y)⟩ }

/-- A cache-only call never recurses: it is exactly the cache probe, leaves
the cache unchanged, and performs one read and nothing else. -/
theorem renderImage_cachedOnly (env : Env) (tc : TileCoords) (c : Cache) :
    RenderImage env tc true c =
      (cacheProbe env tc c, c, [Ev.call tc true, Ev.read tc]) := by
  rw [RenderImage]
  unfold cacheProbe
  cases hg : getTile env tc c with
  | error e => simp
  | ok o =>
    cases o with
    | none => simp
    | some t =>
      cases hd : env.pngDecode t.Data with
      | error e => simp [hd]
      | ok i => simp [hd]


/-- A zoom-13 call never recurses and never writes: it is the cache probe
or, on a fresh miss, the layer lookup followed by one leaf invocation. -/
theorem renderImage_zoom13 (env : Env) (tc : TileCoords) (b : Bool) (c : Cache)
    (hz : tc.Zoom = 13) :
    RenderImage env tc b c =
      match getTile env tc c with
      | Except.error e => (Except.error e, c, [Ev.call tc b, Ev.read tc])
      | Except.ok (some t) =>
        (match env.pngDecode t.Data with
         | Except.error e => (Except.error e, c, [Ev.call tc b, Ev.read tc])
         | Except.ok i =>
           (Except.ok (some (clip256 i)), c, [Ev.call tc b, Ev.read tc]))
      | Except.ok none =>
        if b then (Except.ok none, c, [Ev.call tc b, Ev.read tc])
        else
          match findLayerLoop env.layers tc.LayerId with
          | none => (Except.error "No layer found", c, [Ev.call tc b, Ev.read tc])
          | some l =>
            (env.leafRender (leafVolume env tc l).1 (leafVolume env tc l).2, c,
              [Ev.call tc b, Ev.read tc,
                Ev.leaf (leafVolume env tc l).1 (leafVolume env tc l).2]) := by
  rw [RenderImage]
  cases hg : getTile env tc c with
  | error e => simp
  | ok o =>
    cases o with
    | some t =>
      cases hd : env.pngDecode t.Data with
      | error e => simp [hd]
      | ok i => simp [hd]
    | none =>
      cases b with
      | true => simp
      | false =>
        simp only [Bool.false_eq_true, if_false]
        cases hl : findLayerLoop env.layers tc.LayerId with
        | none => simp
        | some l => simp [hz, leafVolume]


/-- On a fresh miss with a registered layer and zoom in [1,12], the render
call is exactly the quadrant compose step. -/
theorem renderImage_fresh_compose (env : Env) (tc : TileCoords) (c : Cache)
    (hget : env.getErr tc = none) (hmiss : cacheFind c tc = none)
    (hlayer : (findLayerLoop env.layers tc.LayerId).isSome)
    (hlo : 1 ≤ tc.Zoom) (hhi : tc.Zoom ≤ 12) :
    RenderImage env tc false c = composeStep env tc false c := by
  rw [RenderImage]
  unfold composeStep
  have hg : getTile env tc c = Except.ok none := by
    simp [getTile, hget, hmiss]
  rw [hg]
  cases hl : findLayerLoop env.layers tc.LayerId with
  | none => rw [hl] at hlayer; simp at hlayer
  | some l =>
    simp only [Bool.false_eq_true, if_false]
    have hbad : ¬(tc.Zoom > 13 ∨ tc.Zoom < 1) := by omega
    have h13 : ¬(tc.Zoom = 13) := by omega
    simp [hbad, h13]



/-- A child call of the quadrant recursion (cache-only, or at zoom 13)
leaves the cache unchanged and never attempts a cache write. -/
theorem child_no_write (env : Env) (q : TileCoords) (b : Bool) (c : Cache)
    (h : b = true ∨ q.Zoom = 13) :
    (RenderImage env q b c).2.1 = c ∧
      ((RenderImage env q b c).2.2).filter Ev.isWrite = [] := by
  rcases h with h | h
  · subst h
    rw [renderImage_cachedOnly]
    simp [Ev.isWrite]
  · rw [renderImage_zoom13 env q b c h]
    cases hg : getTile env q c with
    | error e => simp [Ev.isWrite]
    | ok o =>
      cases o with
      | some t =>
        cases hd : env.pngDecode t.Data with
        | error e => simp [hd, Ev.isWrite]
        | ok i => simp [hd, Ev.isWrite]
      | none =>
        cases b with
        | true => simp [Ev.isWrite]
        | false =>
          simp only [Bool.false_eq_true, if_false]
          cases hl : findLayerLoop env.layers q.LayerId with
          | none => simp [Ev.isWrite]
          | some l => simp [Ev.isWrite, Ev.isLeaf]

/-- Every render call logs its own entry event. -/
theorem call_mem (env : Env) (q : TileCoords) (b : Bool) (c : Cache) :
    Ev.call q b ∈ (RenderImage env q b c).2.2 := by
  rw [RenderImage]
  cases hg : getTile env q c with
  | error e => simp
  | ok o =>
    cases o with
    | some t => cases hd : env.pngDecode t.Data <;> simp [hd]
    | none =>
      cases b with
      | true => simp
      | false =>
        simp only [Bool.false_eq_true, if_false]
        cases hl : findLayerLoop env.layers q.LayerId with
        | none => simp
        | some l =>
          by_cases hbad : q.Zoom > 13 ∨ q.Zoom < 1
          · simp [hbad]
          · by_cases h13 : q.Zoom = 13
            · simp [hbad, h13]
            · simp only [dif_neg hbad, dif_neg h13]
              rcases h1 : RenderImage env (GetZoomedQuadrantsFromTile q).UpperLeft
                  (decide (q.Zoom < 12)) c with ⟨r1, c1, ev1⟩
              cases r1 with
              | error e => simp [h1]
              | ok ul =>
                rcases h2 : RenderImage env (GetZoomedQuadrantsFromTile q).UpperRight
                    (decide (q.Zoom < 12)) c1 with ⟨r2, c2, ev2⟩
                cases r2 with
                | error e => simp [h2]
                | ok ur =>
                  rcases h3 : RenderImage env (GetZoomedQuadrantsFromTile q).LowerLeft
                      (decide (q.Zoom < 12)) c2 with ⟨r3, c3, ev3⟩
                  cases r3 with
                  | error e => simp [h2, h3]
                  | ok ll =>
                    rcases h4 : RenderImage env (GetZoomedQuadrantsFromTile q).LowerRight
                        (decide (q.Zoom < 12)) c3 with ⟨r4, c4, ev4⟩
                    cases r4 with
                    | error e => simp [h2, h3, h4]
                    | ok lr => simp [h2, h3, h4]


/-- C8: a cache-only call on an address without a cache entry returns the
empty result with no error, leaves the cache unchanged, and performs no
layer lookup, no validation, no leaf call and no cache write: its only
event is the single cache read, and the result is the clean empty result
for every environment (any layer list) and every address (any zoom). -/
theorem cachedOnly_miss_returns_empty (env : Env) (tc : TileCoords) (c : Cache)
    (hget : env.getErr tc = none) (hmiss : cacheFind c tc = none) :
    RenderImage env tc true c =
      (Except.ok none, c, [Ev.call tc true, Ev.read tc]) := by
  rw [renderImage_cachedOnly]
  simp [cacheProbe, getTile, hget, hmiss]

/-- C8 witness: the cache-only short-circuit at a concrete address with an
unregistered layer id and an out-of-range zoom still returns the clean
empty result. -/
theorem cachedOnly_miss_returns_empty_witness :
    RenderImage env0 ⟨0, 0, 77, 9⟩ true [] =
      (Except.ok none, [], [Ev.call ⟨0, 0, 77, 9⟩ true, Ev.read ⟨0, 0, 77, 9⟩]) :=
  cachedOnly_miss_returns_empty env0 ⟨0, 0, 77, 9⟩ [] rfl rfl

/-- C9: a render call on an address whose cache entry exists but whose
stored bytes fail to decode returns that decode error; it does not fall
back to fresh recomputation (no leaf event, no recursion) and leaves the
cache unchanged. -/
theorem decode_failure_surfaced (env : Env) (tc : TileCoords) (b : Bool)
    (c : Cache) (t : Tile) (e : String)
    (hget : env.getErr tc = none) (hhit : cacheFind c tc = some t)
    (hdec : env.pngDecode t.Data = Except.error e) :
    RenderImage env tc b c =
      (Except.error e, c, [Ev.call tc b, Ev.read tc]) := by
  rw [RenderImage]
  simp [getTile, hget, hhit, hdec]

/-- C9 witness: a concrete corrupt entry at a zoom-4 address is surfaced
as its decode error with the cache left unchanged. -/
theorem decode_failure_surfaced_witness :
    RenderImage { env0 with pngDecode := fun _ => Except.error "png: corrupt" }
        ⟨1, 2, 4, 0⟩ false [(⟨1, 2, 4, 0⟩, ⟨⟨1, 2, 4, 0⟩, [9], 5⟩)] =
      (Except.error "png: corrupt",
        [(⟨1, 2, 4, 0⟩, ⟨⟨1, 2, 4, 0⟩, [9], 5⟩)],
        [Ev.call ⟨1, 2, 4, 0⟩ false, Ev.read ⟨1, 2, 4, 0⟩]) :=
  decode_failure_surfaced _ ⟨1, 2, 4, 0⟩ false _ ⟨⟨1, 2, 4, 0⟩, [9], 5⟩
    "png: corrupt" rfl (by simp [cacheFind]) rfl

/-- On a fresh miss without a registered layer, the call fails before any
leaf or write I/O. -/
theorem renderImage_no_layer (env : Env) (tc : TileCoords) (b : Bool) (c : Cache)
    (hget : env.getErr tc = none) (hmiss : cacheFind c tc = none)
    (hl : findLayerLoop env.layers tc.LayerId = none) :
    RenderImage env tc b c =
      (if b then Except.ok none else Except.error "No layer found", c,
        [Ev.call tc b, Ev.read tc]) := by
  rw [RenderImage]
  have hg : getTile env tc c = Except.ok none := by simp [getTile, hget, hmiss]
  rw [hg]
  cases b with
  | true => simp
  | false => simp [hl]

/-- Structure of the compose step for zoom in [1,12]: either it fails with
the cache untouched and no write attempted, or it succeeds with the
composite of the four child results, attempts exactly one write for the
parent address, and its event list holds the four child entry events, each
carrying the cache-only flag `tc.Zoom < 12`. -/
theorem composeStep_main (env : Env) (tc : TileCoords) (b : Bool) (c : Cache)
    (hlo : 1 ≤ tc.Zoom) (hhi : tc.Zoom ≤ 12) :
    ((composeStep env tc b c).2.1 = c ∧
      (∃ e, (composeStep env tc b c).1 = Except.error e) ∧
      ((composeStep env tc b c).2.2).filter Ev.isWrite = []) ∨
    (∃ img, (composeStep env tc b c).1 = Except.ok (some img) ∧
      (composeStep env tc b c).2.1 =
        setTile env { Pos := tc, Data := env.pngEncode img, Mtime := env.now } c ∧
      ((composeStep env tc b c).2.2).filter Ev.isWrite = [Ev.write tc] ∧
      Ev.call (GetZoomedQuadrantsFromTile tc).UpperLeft (decide (tc.Zoom < 12)) ∈
        (composeStep env tc b c).2.2 ∧
      Ev.call (GetZoomedQuadrantsFromTile tc).UpperRight (decide (tc.Zoom < 12)) ∈
        (composeStep env tc b c).2.2 ∧
      Ev.call (GetZoomedQuadrantsFromTile tc).LowerLeft (decide (tc.Zoom < 12)) ∈
        (composeStep env tc b c).2.2 ∧
      Ev.call (GetZoomedQuadrantsFromTile tc).LowerRight (decide (tc.Zoom < 12)) ∈
        (composeStep env tc b c).2.2) := by
  have hflag : ∀ q : TileCoords, q.Zoom = tc.Zoom + 1 →
      (decide (tc.Zoom < 12) = true ∨ q.Zoom = 13) := by
    intro q hq
    by_cases h : tc.Zoom < 12
    · exact Or.inl (by simpa using h)
    · exact Or.inr (by omega)
  have hUL : (GetZoomedQuadrantsFromTile tc).UpperLeft.Zoom = tc.Zoom + 1 := rfl
  have hUR : (GetZoomedQuadrantsFromTile tc).UpperRight.Zoom = tc.Zoom + 1 := rfl
  have hLL : (GetZoomedQuadrantsFromTile tc).LowerLeft.Zoom = tc.Zoom + 1 := rfl
  have hLR : (GetZoomedQuadrantsFromTile tc).LowerRight.Zoom = tc.Zoom + 1 := rfl
  unfold composeStep
  rcases h1 : RenderImage env (GetZoomedQuadrantsFromTile tc).UpperLeft
      (decide (tc.Zoom < 12)) c with ⟨r1, c1, ev1⟩
  have hch1 := child_no_write env (GetZoomedQuadrantsFromTile tc).UpperLeft
    (decide (tc.Zoom < 12)) c (hflag _ hUL)
  rw [h1] at hch1
  have hc1 : c1 = c := hch1.1
  have hw1 : List.filter Ev.isWrite ev1 = [] := hch1.2
  cases r1 with
  | error e => exact Or.inl (by simp [h1, hc1, hw1, Ev.isWrite])
  | ok ul =>
    rw [hc1] at h1
    rcases h2 : RenderImage env (GetZoomedQuadrantsFromTile tc).UpperRight
        (decide (tc.Zoom < 12)) c with ⟨r2, c2, ev2⟩
    have hch2 := child_no_write env (GetZoomedQuadrantsFromTile tc).UpperRight
      (decide (tc.Zoom < 12)) c (hflag _ hUR)
    rw [h2] at hch2
    have hc2 : c2 = c := hch2.1
    have hw2 : List.filter Ev.isWrite ev2 = [] := hch2.2
    cases r2 with
    | error e =>
      exact Or.inl (by simp [h1, h2, hc2, hw1, hw2, Ev.isWrite])
    | ok ur =>
      rw [hc2] at h2
      rcases h3 : RenderImage env (GetZoomedQuadrantsFromTile tc).LowerLeft
          (decide (tc.Zoom < 12)) c with ⟨r3, c3, ev3⟩
      have hch3 := child_no_write env (GetZoomedQuadrantsFromTile tc).LowerLeft
        (decide (tc.Zoom < 12)) c (hflag _ hLL)
      rw [h3] at hch3
      have hc3 : c3 = c := hch3.1
      have hw3 : List.filter Ev.isWrite ev3 = [] := hch3.2
      cases r3 with
      | error e =>
        exact Or.inl (by simp [h1, h2, h3, hc3, hw1, hw2, hw3, Ev.isWrite])
      | ok ll =>
        rw [hc3] at h3
        rcases h4 : RenderImage env (GetZoomedQuadrantsFromTile tc).LowerRight
            (decide (tc.Zoom < 12)) c with ⟨r4, c4, ev4⟩
        have hch4 := child_no_write env (GetZoomedQuadrantsFromTile tc).LowerRight
          (decide (tc.Zoom < 12)) c (hflag _ hLR)
        rw [h4] at hch4
        have hc4 : c4 = c := hch4.1
        have hw4 : List.filter Ev.isWrite ev4 = [] := hch4.2
        have hm1 := call_mem env (GetZoomedQuadrantsFromTile tc).UpperLeft
          (decide (tc.Zoom < 12)) c
        have hm2 := call_mem env (GetZoomedQuadrantsFromTile tc).UpperRight
          (decide (tc.Zoom < 12)) c
        have hm3 := call_mem env (GetZoomedQuadrantsFromTile tc).LowerLeft
          (decide (tc.Zoom < 12)) c
        have hm4 := call_mem env (GetZoomedQuadrantsFromTile tc).LowerRight
          (decide (tc.Zoom < 12)) c
        rw [h1] at hm1
        rw [h2] at hm2
        rw [h3] at hm3
        rw [h4] at hm4
        have hm1e : Ev.call (GetZoomedQuadrantsFromTile tc).UpperLeft
            (decide (tc.Zoom < 12)) ∈ ev1 := hm1
        have hm2e : Ev.call (GetZoomedQuadrantsFromTile tc).UpperRight
            (decide (tc.Zoom < 12)) ∈ ev2 := hm2
        have hm3e : Ev.call (GetZoomedQuadrantsFromTile tc).LowerLeft
            (decide (tc.Zoom < 12)) ∈ ev3 := hm3
        have hm4e : Ev.call (GetZoomedQuadrantsFromTile tc).LowerRight
            (decide (tc.Zoom < 12)) ∈ ev4 := hm4
        cases r4 with
        | error e =>
          exact Or.inl (by simp [h1, h2, h3, h4, hc4, hw1, hw2, hw3, hw4, Ev.isWrite])
        | ok lr =>
          rw [hc4] at h4
          refine Or.inr ⟨composeImg env ul ur ll lr, ?_, ?_, ?_, ?_, ?_, ?_, ?_⟩
          · simp [h1, h2, h3, h4]
          · simp [h1, h2, h3, h4]
          · simp [h1, h2, h3, h4, hw1, hw2, hw3, hw4, Ev.isWrite]
          · simp [h1, h2, h3, h4, hm1e]
          · simp [h1, h2, h3, h4, hm2e]
          · simp [h1, h2, h3, h4, hm3e]
          · simp [h1, h2, h3, h4, hm4e]

/-- C5 counterexample: the claim in its literal form places the layer and
zoom checks before any cache I/O, but at the concrete fresh request with
zoom 14 (over an empty cache with a registered layer) the call both fails
the zoom check and has already performed a cache read: cache I/O precedes
the validation. -/
theorem validation_order_counterexample :
    (RenderImage env0 ⟨0, 0, 14, 0⟩ false []).1 = Except.error "Invalid zoom" ∧
      Ev.read ⟨0, 0, 14, 0⟩ ∈ (RenderImage env0 ⟨0, 0, 14, 0⟩ false []).2.2 := by
  rw [RenderImage]
  simp [getTile, env0, cacheFind, findLayerLoop]

/-- C5 amended: on a fresh-path request that fails validation (layer
missing, or zoom outside [1,13]) the call fails before any leaf-renderer
I/O and before any cache write, with the cache unchanged; the only cache
I/O that precedes the checks is the single miss lookup. -/
theorem validation_before_leaf_and_write (env : Env) (tc : TileCoords) (c : Cache)
    (hget : env.getErr tc = none) (hmiss : cacheFind c tc = none)
    (hbad : (tc.Zoom > 13 ∨ tc.Zoom < 1) ∨ findLayerLoop env.layers tc.LayerId = none) :
    ((RenderImage env tc false c).1 = Except.error "No layer found" ∨
      (RenderImage env tc false c).1 = Except.error "Invalid zoom") ∧
    (RenderImage env tc false c).2.1 = c ∧
    (RenderImage env tc false c).2.2 = [Ev.call tc false, Ev.read tc] := by
  rw [RenderImage]
  have hg : getTile env tc c = Except.ok none := by simp [getTile, hget, hmiss]
  rw [hg]
  cases hl : findLayerLoop env.layers tc.LayerId with
  | none => simp
  | some l =>
    rcases hbad with hb | hb
    · simp [hb]
    · rw [hl] at hb
      cases hb

/-- C5 amended witness: a concrete zoom-0 fresh request fails validation
with the cache untouched and only the entry and miss-read events. -/
theorem validation_before_leaf_and_write_witness :
    ((RenderImage env0 ⟨0, 0, 0, 0⟩ false []).1 = Except.error "No layer found" ∨
      (RenderImage env0 ⟨0, 0, 0, 0⟩ false []).1 = Except.error "Invalid zoom") ∧
    (RenderImage env0 ⟨0, 0, 0, 0⟩ false []).2.1 = [] ∧
    (RenderImage env0 ⟨0, 0, 0, 0⟩ false []).2.2 =
      [Ev.call ⟨0, 0, 0, 0⟩ false, Ev.read ⟨0, 0, 0, 0⟩] :=
  validation_before_leaf_and_write env0 ⟨0, 0, 0, 0⟩ [] rfl rfl
    (Or.inl (Or.inr (by decide)))


/-- C6 evaluation at the failing input: the zoom-13 fresh request for
layer id 1 hands the leaf renderer a volume clamped to the bounds 30..40
of the LAST layer in the registry, not the bounds 10..20 of the matching
layer — the Go 1.16 range-loop capture `layer = &l` leaves the pointer on
the final slice element. -/
theorem leaf_clamp_uses_last_layer :
    RenderImage envC6 ⟨0, 0, 13, 1⟩ false [] =
      (Except.ok none, [],
        [Ev.call ⟨0, 0, 13, 1⟩ false, Ev.read ⟨0, 0, 13, 1⟩,
          Ev.leaf ⟨0, 30, 0⟩ ⟨0, 40, 0⟩]) := by
  rw [renderImage_zoom13 envC6 ⟨0, 0, 13, 1⟩ false [] rfl]
  simp [getTile, envC6, env0, cacheFind, findLayerLoop, leafVolume]

/-- Composing four empty children yields the untouched fresh raster. -/
theorem composeImg_none (env : Env) :
    composeImg env none none none none = newNRGBA := rfl

/-- Full evaluation of a fresh render over an entirely empty cache at a
zoom in [1,11]: the four children are probed cache-only and come back
empty, the all-blank composite is encoded and written for the requested
address, and no leaf call happens. -/
theorem renderImage_shallow_empty (env : Env) (tc : TileCoords)
    (hlo : 1 ≤ tc.Zoom) (hhi : tc.Zoom ≤ 11)
    (hget : ∀ a, env.getErr a = none)
    (hlayer : (findLayerLoop env.layers tc.LayerId).isSome) :
    RenderImage env tc false [] =
      (Except.ok (some newNRGBA),
        setTile env { Pos := tc, Data := env.pngEncode newNRGBA, Mtime := env.now } [],
        [Ev.call tc false, Ev.read tc,
          Ev.call (GetZoomedQuadrantsFromTile tc).UpperLeft true,
          Ev.read (GetZoomedQuadrantsFromTile tc).UpperLeft,
          Ev.call (GetZoomedQuadrantsFromTile tc).UpperRight true,
          Ev.read (GetZoomedQuadrantsFromTile tc).UpperRight,
          Ev.call (GetZoomedQuadrantsFromTile tc).LowerLeft true,
          Ev.read (GetZoomedQuadrantsFromTile tc).LowerLeft,
          Ev.call (GetZoomedQuadrantsFromTile tc).LowerRight true,
          Ev.read (GetZoomedQuadrantsFromTile tc).LowerRight,
          Ev.write tc]) := by
  have hco : ∀ q : TileCoords, RenderImage env q true [] =
      (Except.ok none, [], [Ev.call q true, Ev.read q]) := by
    intro q
    rw [renderImage_cachedOnly]
    simp [cacheProbe, getTile, hget q, cacheFind]
  have hf : (decide (tc.Zoom < 12)) = true := by
    simp only [decide_eq_true_eq]
    omega
  rw [renderImage_fresh_compose env tc [] (hget tc) rfl hlayer hlo (by omega)]
  unfold composeStep
  rw [hf]
  simp [hco, composeImg_none]

/-- C2: a zoom-13 render call never attempts a cache write at this layer
(in particular on its fresh path), and a fresh zoom-[1,12] request that
reaches the compose step without error attempts exactly one cache write,
for the requested address itself — even when all four quadrants are blank. -/
theorem asymmetric_caching (env : Env) (tc : TileCoords) (c : Cache) :
    (tc.Zoom = 13 → ∀ b : Bool,
      ((RenderImage env tc b c).2.2).filter Ev.isWrite = []) ∧
    (1 ≤ tc.Zoom → tc.Zoom ≤ 12 → env.getErr tc = none → cacheFind c tc = none →
      ∀ r, (RenderImage env tc false c).1 = Except.ok r →
        ((RenderImage env tc false c).2.2).filter Ev.isWrite = [Ev.write tc]) := by
  constructor
  · intro hz b
    exact (child_no_write env tc b c (Or.inr hz)).2
  · intro hlo hhi hget hmiss r hok
    cases hl : findLayerLoop env.layers tc.LayerId with
    | none =>
      rw [renderImage_no_layer env tc false c hget hmiss hl] at hok
      simp at hok
    | some l =>
      have hcs := renderImage_fresh_compose env tc c hget hmiss (by rw [hl]; rfl)
        hlo hhi
      rw [hcs] at hok ⊢
      rcases composeStep_main env tc false c hlo hhi with
        ⟨_, ⟨e, he⟩, _⟩ | ⟨img, _, _, hw, _⟩
      · rw [he] at hok
        cases hok
      · exact hw

/-- C2 witness: at zoom 13 no write event is filtered out of a concrete
fresh request; at zoom 5 with an empty cache the single write for the
requested address itself appears although all quadrants are blank. -/
theorem asymmetric_caching_witness :
    ((RenderImage env0 ⟨0, 0, 13, 0⟩ false []).2.2).filter Ev.isWrite = [] ∧
    ((RenderImage env0 ⟨0, 0, 5, 0⟩ false []).2.2).filter Ev.isWrite =
      [Ev.write ⟨0, 0, 5, 0⟩] :=
  ⟨(asymmetric_caching env0 ⟨0, 0, 13, 0⟩ []).1 rfl false,
   (asymmetric_caching env0 ⟨0, 0, 5, 0⟩ []).2 (by decide) (by decide) rfl rfl
     (some newNRGBA)
     (by rw [renderImage_shallow_empty env0 ⟨0, 0, 5, 0⟩ (by decide) (by decide)
           (fun _ => rfl) rfl])⟩

/-- C3: on the fresh compose path for zoom in [1,12] that returns without
error, all four child renders at zoom+1 are entered with the cache-only
flag `tc.Zoom < 12`, which is false exactly when the parent zoom is 12 and
true exactly for parent zooms up to 11. -/
theorem child_cache_only_flag (env : Env) (tc : TileCoords) (c : Cache)
    (hlo : 1 ≤ tc.Zoom) (hhi : tc.Zoom ≤ 12)
    (hget : env.getErr tc = none) (hmiss : cacheFind c tc = none)
    (hlayer : (findLayerLoop env.layers tc.LayerId).isSome)
    (r : Option Img) (hok : (RenderImage env tc false c).1 = Except.ok r) :
    (Ev.call (GetZoomedQuadrantsFromTile tc).UpperLeft (decide (tc.Zoom < 12)) ∈
        (RenderImage env tc false c).2.2 ∧
      Ev.call (GetZoomedQuadrantsFromTile tc).UpperRight (decide (tc.Zoom < 12)) ∈
        (RenderImage env tc false c).2.2 ∧
      Ev.call (GetZoomedQuadrantsFromTile tc).LowerLeft (decide (tc.Zoom < 12)) ∈
        (RenderImage env tc false c).2.2 ∧
      Ev.call (GetZoomedQuadrantsFromTile tc).LowerRight (decide (tc.Zoom < 12)) ∈
        (RenderImage env tc false c).2.2) ∧
    (decide (tc.Zoom < 12) = false ↔ tc.Zoom = 12) ∧
    (decide (tc.Zoom < 12) = true ↔ tc.Zoom ≤ 11) := by
  have hcs := renderImage_fresh_compose env tc c hget hmiss hlayer hlo hhi
  rw [hcs] at hok ⊢
  rcases composeStep_main env tc false c hlo hhi with
    ⟨_, ⟨e, he⟩, _⟩ | ⟨img, _, _, _, m1, m2, m3, m4⟩
  · rw [he] at hok
    cases hok
  · refine ⟨⟨m1, m2, m3, m4⟩, ?_, ?_⟩
    · simp only [decide_eq_false_iff_not, not_lt]
      omega
    · simp only [decide_eq_true_eq]
      omega

/-- C3 witness: at the concrete zoom-5 fresh request, the four child entry
events carry the cache-only flag true (5 is at most 11). -/
theorem child_cache_only_flag_witness :
    (Ev.call (GetZoomedQuadrantsFromTile ⟨0, 0, 5, 0⟩).UpperLeft
        (decide ((5 : Int) < 12)) ∈ (RenderImage env0 ⟨0, 0, 5, 0⟩ false []).2.2 ∧
      Ev.call (GetZoomedQuadrantsFromTile ⟨0, 0, 5, 0⟩).UpperRight
        (decide ((5 : Int) < 12)) ∈ (RenderImage env0 ⟨0, 0, 5, 0⟩ false []).2.2 ∧
      Ev.call (GetZoomedQuadrantsFromTile ⟨0, 0, 5, 0⟩).LowerLeft
        (decide ((5 : Int) < 12)) ∈ (RenderImage env0 ⟨0, 0, 5, 0⟩ false []).2.2 ∧
      Ev.call (GetZoomedQuadrantsFromTile ⟨0, 0, 5, 0⟩).LowerRight
        (decide ((5 : Int) < 12)) ∈ (RenderImage env0 ⟨0, 0, 5, 0⟩ false []).2.2) ∧
    (decide ((5 : Int) < 12) = false ↔ (5 : Int) = 12) ∧
    (decide ((5 : Int) < 12) = true ↔ (5 : Int) ≤ 11) :=
  child_cache_only_flag env0 ⟨0, 0, 5, 0⟩ [] (by decide) (by decide) rfl rfl rfl
    (some newNRGBA)
    (by rw [renderImage_shallow_empty env0 ⟨0, 0, 5, 0⟩ (by decide) (by decide)
          (fun _ => rfl) rfl])

/-- A failing cache lookup is propagated unchanged. -/
theorem renderImage_getErr (env : Env) (tc : TileCoords) (b : Bool) (c : Cache)
    (e : String) (hg : env.getErr tc = some e) :
    RenderImage env tc b c = (Except.error e, c, [Ev.call tc b, Ev.read tc]) := by
  rw [RenderImage]
  simp [getTile, hg]

/-- A cache hit is decoded and returned with the cache unchanged. -/
theorem renderImage_hit (env : Env) (tc : TileCoords) (b : Bool) (c : Cache)
    (t : Tile) (hget : env.getErr tc = none) (hhit : cacheFind c tc = some t) :
    RenderImage env tc b c =
      ((match env.pngDecode t.Data with
        | Except.error e => Except.error e
        | Except.ok i => Except.ok (some (clip256 i))), c,
        [Ev.call tc b, Ev.read tc]) := by
  rw [RenderImage]
  cases hd : env.pngDecode t.Data <;> simp [getTile, hget, hhit, hd]

/-- A fresh miss with a registered layer but zoom outside [1,13] fails the
zoom validation with the cache unchanged. -/
theorem renderImage_bad_zoom (env : Env) (tc : TileCoords) (c : Cache)
    (hget : env.getErr tc = none) (hmiss : cacheFind c tc = none)
    (hbad : tc.Zoom > 13 ∨ tc.Zoom < 1) :
    RenderImage env tc false c =
      ((if (findLayerLoop env.layers tc.LayerId).isSome then
          Except.error "Invalid zoom" else Except.error "No layer found"), c,
        [Ev.call tc false, Ev.read tc]) := by
  rw [RenderImage]
  have hg : getTile env tc c = Except.ok none := by simp [getTile, hget, hmiss]
  rw [hg]
  cases hl : findLayerLoop env.layers tc.LayerId with
  | none => simp
  | some l => simp [hbad]

/-- The head entry of the cache wins the lookup for its own address. -/
theorem cacheFind_cons_self (c : Cache) (tc : TileCoords) (t : Tile) :
    cacheFind ((tc, t) :: c) tc = some t := by
  simp [cacheFind]

/-- Top-level render over a cache hit returns the stored bytes unchanged. -/
theorem render_hit (env : Env) (tc : TileCoords) (c : Cache) (t : Tile)
    (hget : env.getErr tc = none) (hhit : cacheFind c tc = some t) :
    Render env tc c = (Except.ok (some t.Data), c, [Ev.read tc]) := by
  unfold Render
  simp [getTile, hget, hhit]

/-- Top-level render with a failing cache lookup propagates the failure. -/
theorem render_getErr (env : Env) (tc : TileCoords) (c : Cache) (e : String)
    (hg : env.getErr tc = some e) :
    Render env tc c = (Except.error e, c, [Ev.read tc]) := by
  unfold Render
  simp [getTile, hg]

/-- Top-level render on a miss wraps the recursive render, encoding a
non-empty raster and passing the empty sentinel and errors through. -/
theorem render_miss (env : Env) (tc : TileCoords) (c : Cache)
    (hget : env.getErr tc = none) (hmiss : cacheFind c tc = none) :
    Render env tc c =
      (match RenderImage env tc false c with
       | (Except.error e, c1, ev1) => (Except.error e, c1, Ev.read tc :: ev1)
       | (Except.ok none, c1, ev1) => (Except.ok none, c1, Ev.read tc :: ev1)
       | (Except.ok (some img), c1, ev1) =>
         (Except.ok (some (env.pngEncode img)), c1, Ev.read tc :: ev1)) := by
  unfold Render
  have hg : getTile env tc c = Except.ok none := by simp [getTile, hget, hmiss]
  rw [hg]

/-- C1 amended: a zoom-5 request over an entirely empty cache (with a
registered layer and a working cache) returns the PNG encoding of the
all-blank composite — not the empty sentinel — and writes the all-blank
cache entry for the zoom-5 address; no leaf call occurs, and the repeat
request returns the identical cached bytes from the single cache read,
again without any leaf-renderer call. -/
theorem coldcache_zoom5 (env : Env) (tc : TileCoords)
    (hz : tc.Zoom = 5) (hget : ∀ a, env.getErr a = none)
    (hset : env.setFails = false)
    (hlayer : (findLayerLoop env.layers tc.LayerId).isSome) :
    Render env tc [] =
      (Except.ok (some (env.pngEncode newNRGBA)),
        [(tc, { Pos := tc, Data := env.pngEncode newNRGBA, Mtime := env.now })],
        [Ev.read tc, Ev.call tc false, Ev.read tc,
          Ev.call (GetZoomedQuadrantsFromTile tc).UpperLeft true,
          Ev.read (GetZoomedQuadrantsFromTile tc).UpperLeft,
          Ev.call (GetZoomedQuadrantsFromTile tc).UpperRight true,
          Ev.read (GetZoomedQuadrantsFromTile tc).UpperRight,
          Ev.call (GetZoomedQuadrantsFromTile tc).LowerLeft true,
          Ev.read (GetZoomedQuadrantsFromTile tc).LowerLeft,
          Ev.call (GetZoomedQuadrantsFromTile tc).LowerRight true,
          Ev.read (GetZoomedQuadrantsFromTile tc).LowerRight,
          Ev.write tc]) ∧
    Render env tc
        [(tc, { Pos := tc, Data := env.pngEncode newNRGBA, Mtime := env.now })] =
      (Except.ok (some (env.pngEncode newNRGBA)),
        [(tc, { Pos := tc, Data := env.pngEncode newNRGBA, Mtime := env.now })],
        [Ev.read tc]) := by
  constructor
  · rw [render_miss env tc [] (hget tc) rfl]
    rw [renderImage_shallow_empty env tc (by omega) (by omega) hget hlayer]
    simp [setTile, hset]
  · exact render_hit env tc _ _ (hget tc) (cacheFind_cons_self [] tc _)

/-- C1 counterexample: at the concrete zoom-5 address over an entirely
empty cache, the top-level render returns encoded bytes (the PNG of the
all-blank composite), not the empty/no-content sentinel the claim
expects. -/
theorem coldcache_zoom5_counterexample :
    (Render env0 ⟨0, 0, 5, 0⟩ []).1 = Except.ok (some [7]) ∧
      (some [7] : Option (List Nat)) ≠ none := by
  refine ⟨?_, by simp⟩
  rw [render_miss env0 ⟨0, 0, 5, 0⟩ [] rfl rfl]
  rw [renderImage_shallow_empty env0 ⟨0, 0, 5, 0⟩ (by decide) (by decide)
    (fun _ => rfl) rfl]
  rfl

/-- C1 amended witness: the concrete zoom-5 cold-cache request and its
repeat, evaluated end to end. -/
theorem coldcache_zoom5_witness :
    Render env0 ⟨0, 0, 5, 0⟩ [] =
      (Except.ok (some [7]),
        [(⟨0, 0, 5, 0⟩, { Pos := ⟨0, 0, 5, 0⟩, Data := [7], Mtime := 42 })],
        [Ev.read ⟨0, 0, 5, 0⟩, Ev.call ⟨0, 0, 5, 0⟩ false, Ev.read ⟨0, 0, 5, 0⟩,
          Ev.call (GetZoomedQuadrantsFromTile ⟨0, 0, 5, 0⟩).UpperLeft true,
          Ev.read (GetZoomedQuadrantsFromTile ⟨0, 0, 5, 0⟩).UpperLeft,
          Ev.call (GetZoomedQuadrantsFromTile ⟨0, 0, 5, 0⟩).UpperRight true,
          Ev.read (GetZoomedQuadrantsFromTile ⟨0, 0, 5, 0⟩).UpperRight,
          Ev.call (GetZoomedQuadrantsFromTile ⟨0, 0, 5, 0⟩).LowerLeft true,
          Ev.read (GetZoomedQuadrantsFromTile ⟨0, 0, 5, 0⟩).LowerLeft,
          Ev.call (GetZoomedQuadrantsFromTile ⟨0, 0, 5, 0⟩).LowerRight true,
          Ev.read (GetZoomedQuadrantsFromTile ⟨0, 0, 5, 0⟩).LowerRight,
          Ev.write ⟨0, 0, 5, 0⟩]) ∧
    Render env0 ⟨0, 0, 5, 0⟩
        [(⟨0, 0, 5, 0⟩, { Pos := ⟨0, 0, 5, 0⟩, Data := [7], Mtime := 42 })] =
      (Except.ok (some [7]),
        [(⟨0, 0, 5, 0⟩, { Pos := ⟨0, 0, 5, 0⟩, Data := [7], Mtime := 42 })],
        [Ev.read ⟨0, 0, 5, 0⟩]) :=
  coldcache_zoom5 env0 ⟨0, 0, 5, 0⟩ rfl (fun _ => rfl) rfl rfl

/-- Cache-only and zoom-13 calls do not consult the write collaborator, so
their whole result is unchanged under a different `setFails` injection. -/
theorem renderImage_setFails_child (env : Env) (b1 b2 : Bool) (q : TileCoords)
    (bq : Bool) (c : Cache) (h : bq = true ∨ q.Zoom = 13) :
    RenderImage { env with setFails := b1 } q bq c =
      RenderImage { env with setFails := b2 } q bq c := by
  rcases h with h | h
  · subst h
    rw [renderImage_cachedOnly, renderImage_cachedOnly]
    rfl
  · rw [renderImage_zoom13 _ _ _ _ h, renderImage_zoom13 _ _ _ _ h]
    rfl

/-- The compose step returns the same value whether cache writes fail or
succeed: only the cache content after the call differs. -/
theorem composeStep_setFails (env : Env) (b1 b2 : Bool) (tc : TileCoords)
    (b : Bool) (c : Cache) (hlo : 1 ≤ tc.Zoom) (hhi : tc.Zoom ≤ 12) :
    (composeStep { env with setFails := b1 } tc b c).1 =
      (composeStep { env with setFails := b2 } tc b c).1 := by
  have hq : ∀ (q : TileCoords) (c' : Cache), q.Zoom = tc.Zoom + 1 →
      RenderImage { env with setFails := b1 } q (decide (tc.Zoom < 12)) c' =
        RenderImage { env with setFails := b2 } q (decide (tc.Zoom < 12)) c' := by
    intro q c' hqz
    refine renderImage_setFails_child env b1 b2 q _ c' ?_
    by_cases hlt : tc.Zoom < 12
    · exact Or.inl (by simpa using hlt)
    · exact Or.inr (by omega)
  simp only [composeStep]
  rcases e1 : RenderImage { env with setFails := b1 }
      (GetZoomedQuadrantsFromTile tc).UpperLeft
      (decide (tc.Zoom < 12)) c with ⟨r1, c1, ev1⟩
  have e1b := (hq (GetZoomedQuadrantsFromTile tc).UpperLeft c rfl).symm.trans e1
  rw [e1b]
  cases r1 with
  | error e => simp
  | ok ul =>
    simp only []
    rcases e2 : RenderImage { env with setFails := b1 }
        (GetZoomedQuadrantsFromTile tc).UpperRight
        (decide (tc.Zoom < 12)) c1 with ⟨r2, c2, ev2⟩
    have e2b := (hq (GetZoomedQuadrantsFromTile tc).UpperRight c1 rfl).symm.trans e2
    rw [e2b]
    cases r2 with
    | error e => simp
    | ok ur =>
      simp only []
      rcases e3 : RenderImage { env with setFails := b1 }
          (GetZoomedQuadrantsFromTile tc).LowerLeft
          (decide (tc.Zoom < 12)) c2 with ⟨r3, c3, ev3⟩
      have e3b := (hq (GetZoomedQuadrantsFromTile tc).LowerLeft c2 rfl).symm.trans e3
      rw [e3b]
      cases r3 with
      | error e => simp
      | ok ll =>
        simp only []
        rcases e4 : RenderImage { env with setFails := b1 }
            (GetZoomedQuadrantsFromTile tc).LowerRight
            (decide (tc.Zoom < 12)) c3 with ⟨r4, c4, ev4⟩
        have e4b := (hq (GetZoomedQuadrantsFromTile tc).LowerRight c3 rfl).symm.trans e4
        rw [e4b]
        cases r4 with
        | error e => simp
        | ok lr => simp only []; rfl

/-- C10: the returned value of a render call is identical whether every
cache write fails or every cache write succeeds: a failure of the set
collaborator is never propagated, and the freshly composed raster (or
error, or sentinel) returned does not depend on the write outcome. -/
theorem set_failure_not_propagated (env : Env) (tc : TileCoords) (b : Bool)
    (c : Cache) (b1 b2 : Bool) :
    (RenderImage { env with setFails := b1 } tc b c).1 =
      (RenderImage { env with setFails := b2 } tc b c).1 := by
  cases b with
  | true =>
    rw [renderImage_setFails_child env b1 b2 tc true c (Or.inl rfl)]
  | false =>
    cases hg : env.getErr tc with
    | some e =>
      rw [renderImage_getErr { env with setFails := b1 } tc false c e hg,
        renderImage_getErr { env with setFails := b2 } tc false c e hg]
    | none =>
      cases hf : cacheFind c tc with
      | some t =>
        rw [renderImage_hit { env with setFails := b1 } tc false c t hg hf,
          renderImage_hit { env with setFails := b2 } tc false c t hg hf]
      | none =>
        by_cases h13 : tc.Zoom = 13
        · rw [renderImage_setFails_child env b1 b2 tc false c (Or.inr h13)]
        · cases hl : findLayerLoop env.layers tc.LayerId with
          | none =>
            rw [renderImage_no_layer { env with setFails := b1 } tc false c hg hf hl,
              renderImage_no_layer { env with setFails := b2 } tc false c hg hf hl]
          | some l =>
            by_cases hz : 1 ≤ tc.Zoom ∧ tc.Zoom ≤ 12
            · have hsome : (findLayerLoop env.layers tc.LayerId).isSome := by
                rw [hl]; rfl
              rw [renderImage_fresh_compose { env with setFails := b1 } tc c hg hf hsome hz.1 hz.2,
                renderImage_fresh_compose { env with setFails := b2 } tc c hg hf hsome hz.1 hz.2]
              exact composeStep_setFails env b1 b2 tc false c hz.1 hz.2
            · have hbad : tc.Zoom > 13 ∨ tc.Zoom < 1 := by omega
              rw [renderImage_bad_zoom { env with setFails := b1 } tc c hg hf hbad,
                renderImage_bad_zoom { env with setFails := b2 } tc c hg hf hbad]

/-- Cache effect of one render call: either the cache is returned
unchanged, or the call succeeded on a fresh miss and prepended exactly the
entry holding the encoding of the raster it returns. -/
theorem renderImage_cache_effect (env : Env) (tc : TileCoords) (b : Bool)
    (c : Cache) :
    (RenderImage env tc b c).2.1 = c ∨
    (∃ img, (RenderImage env tc b c).1 = Except.ok (some img) ∧
      env.getErr tc = none ∧ cacheFind c tc = none ∧
      (RenderImage env tc b c).2.1 =
        (tc, { Pos := tc, Data := env.pngEncode img, Mtime := env.now }) :: c) := by
  cases b with
  | true => exact Or.inl (child_no_write env tc true c (Or.inl rfl)).1
  | false =>
    cases hg : env.getErr tc with
    | some e => exact Or.inl (by rw [renderImage_getErr env tc false c e hg])
    | none =>
      cases hf : cacheFind c tc with
      | some t => exact Or.inl (by rw [renderImage_hit env tc false c t hg hf])
      | none =>
        by_cases h13 : tc.Zoom = 13
        · exact Or.inl (child_no_write env tc false c (Or.inr h13)).1
        · cases hl : findLayerLoop env.layers tc.LayerId with
          | none =>
            exact Or.inl (by rw [renderImage_no_layer env tc false c hg hf hl])
          | some l =>
            by_cases hz : 1 ≤ tc.Zoom ∧ tc.Zoom ≤ 12
            · have hsome : (findLayerLoop env.layers tc.LayerId).isSome := by
                rw [hl]; rfl
              rw [renderImage_fresh_compose env tc c hg hf hsome hz.1 hz.2]
              rcases composeStep_main env tc false c hz.1 hz.2 with
                ⟨hcc, _, _⟩ | ⟨img, hok, hcc, _, _⟩
              · exact Or.inl hcc
              · by_cases hsf : env.setFails
                · exact Or.inl (by rw [hcc]; simp [setTile, hsf])
                · refine Or.inr ⟨img, hok, rfl, rfl, ?_⟩
                  rw [hcc]
                  simp [setTile, hsf]
            · have hbad : tc.Zoom > 13 ∨ tc.Zoom < 1 := by omega
              exact Or.inl (by rw [renderImage_bad_zoom env tc c hg hf hbad])

/-- A successful fresh render away from zoom 13 with working writes always
stores its entry: the cache grows by exactly the encoded result. -/
theorem renderImage_fresh_success (env : Env) (tc : TileCoords) (c : Cache)
    (img : Img) (hget : env.getErr tc = none) (hmiss : cacheFind c tc = none)
    (h13 : tc.Zoom ≠ 13) (hset : env.setFails = false)
    (hok : (RenderImage env tc false c).1 = Except.ok (some img)) :
    (RenderImage env tc false c).2.1 =
      (tc, { Pos := tc, Data := env.pngEncode img, Mtime := env.now }) :: c := by
  cases hl : findLayerLoop env.layers tc.LayerId with
  | none =>
    rw [renderImage_no_layer env tc false c hget hmiss hl] at hok
    simp at hok
  | some l =>
    by_cases hz : 1 ≤ tc.Zoom ∧ tc.Zoom ≤ 12
    · have hsome : (findLayerLoop env.layers tc.LayerId).isSome := by
        rw [hl]; rfl
      rw [renderImage_fresh_compose env tc c hget hmiss hsome hz.1 hz.2] at hok ⊢
      rcases composeStep_main env tc false c hz.1 hz.2 with
        ⟨_, ⟨e, he⟩, _⟩ | ⟨img2, hok2, hcc, _, _⟩
      · rw [he] at hok
        cases hok
      · rw [hok2] at hok
        have himg : img2 = img := by
          injection hok with h
          injection h
        rw [hcc, himg]
        simp [setTile, hset]
    · have hbad : tc.Zoom > 13 ∨ tc.Zoom < 1 := by omega
      rw [renderImage_bad_zoom env tc c hget hmiss hbad] at hok
      rcases hl2 : (findLayerLoop env.layers tc.LayerId).isSome with h | h <;>
        rw [hl2] at hok <;> simp at hok

/-- C4 amended: two consecutive top-level renders against an otherwise
unchanged cache return identical output (the collaborators being
deterministic); and when the writes succeed, the first call returned bytes
and the address is not at zoom 13, the second call performs no
leaf-renderer invocation (a zoom-13 address, by the asymmetric caching
policy, is re-rendered by the leaf on every call). -/
theorem render_idempotent (env : Env) (tc : TileCoords) (c : Cache) :
    (Render env tc ((Render env tc c).2.1)).1 = (Render env tc c).1 ∧
    (env.setFails = false → tc.Zoom ≠ 13 →
      ∀ bs, (Render env tc c).1 = Except.ok (some bs) →
        ((Render env tc ((Render env tc c).2.1)).2.2).filter Ev.isLeaf = []) := by
  cases hg : env.getErr tc with
  | some e =>
    have h1 := render_getErr env tc c e hg
    constructor
    · simp [h1]
    · intro _ _ bs hok
      rw [h1] at hok
      cases hok
  | none =>
    cases hf : cacheFind c tc with
    | some t =>
      have h1 := render_hit env tc c t hg hf
      constructor
      · simp [h1]
      · intro _ _ bs hok
        simp [h1, Ev.isLeaf]
    | none =>
      have h1 := render_miss env tc c hg hf
      rcases renderImage_cache_effect env tc false c with hcc | ⟨img, hok0, _, _, hcc⟩
      · have h2 : (Render env tc c).2.1 = c := by
          rw [h1]
          rcases hri : RenderImage env tc false c with ⟨r, c2, ev⟩
          try rw [hri] at hcc
          have hc2 : c2 = c := hcc
          cases r with
          | error e => simpa using hc2
          | ok o => cases o <;> simpa using hc2
        constructor
        · rw [h2]
        · intro hsf h13 bs hok
          have hok1 : ∃ img0,
              (RenderImage env tc false c).1 = Except.ok (some img0) := by
            rw [h1] at hok
            rcases hri : RenderImage env tc false c with ⟨r, c2, ev⟩
            try rw [hri] at hok
            cases r with
            | error e => simp at hok
            | ok o =>
              cases o with
              | none => simp at hok
              | some i => exact ⟨i, rfl⟩
          obtain ⟨img0, hok1⟩ := hok1
          have hw := renderImage_fresh_success env tc c img0 hg hf h13 hsf hok1
          rw [hcc] at hw
          exact absurd hw.symm (List.cons_ne_self _ _)
      · have h2 : (Render env tc c).2.1 =
            (tc, { Pos := tc, Data := env.pngEncode img, Mtime := env.now }) :: c := by
          rw [h1]
          rcases hri : RenderImage env tc false c with ⟨r, c2, ev⟩
          try rw [hri] at hcc hok0
          have hr : r = Except.ok (some img) := hok0
          subst hr
          simpa using hcc
        have hv : (Render env tc c).1 = Except.ok (some (env.pngEncode img)) := by
          rw [h1]
          rcases hri : RenderImage env tc false c with ⟨r, c2, ev⟩
          try rw [hri] at hok0
          have hr : r = Except.ok (some img) := hok0
          subst hr
          rfl
        have hsecond := render_hit env tc
          ((tc, { Pos := tc, Data := env.pngEncode img, Mtime := env.now }) :: c)
          { Pos := tc, Data := env.pngEncode img, Mtime := env.now }
          hg (cacheFind_cons_self c tc _)
        constructor
        · rw [h2, hsecond, hv]
        · intro _ _ bs hok
          rw [h2, hsecond]
          simp [Ev.isLeaf]


/-- C4 counterexample: at the concrete zoom-13 address the first render
leaves the cache unchanged (leaf tiles are never cached at this layer),
and the second render over that unchanged cache invokes the leaf renderer
again — the claim that the second call never invokes the leaf renderer is
false. -/
theorem render_idempotent_counterexample :
    (Render envLeaf ⟨0, 0, 13, 0⟩ []).2.1 = [] ∧
    Ev.leaf ⟨0, -50, 0⟩ ⟨0, 100, 0⟩ ∈
      (Render envLeaf ⟨0, 0, 13, 0⟩ ((Render envLeaf ⟨0, 0, 13, 0⟩ []).2.1)).2.2 := by
  have h13 : RenderImage envLeaf ⟨0, 0, 13, 0⟩ false [] =
      (Except.ok (some newNRGBA), [],
        [Ev.call ⟨0, 0, 13, 0⟩ false, Ev.read ⟨0, 0, 13, 0⟩,
          Ev.leaf ⟨0, -50, 0⟩ ⟨0, 100, 0⟩]) := by
    rw [renderImage_zoom13 envLeaf ⟨0, 0, 13, 0⟩ false [] rfl]
    simp [getTile, envLeaf, env0, cacheFind, findLayerLoop, leafVolume]
  have hr : Render envLeaf ⟨0, 0, 13, 0⟩ [] =
      (Except.ok (some (envLeaf.pngEncode newNRGBA)), [],
        [Ev.read ⟨0, 0, 13, 0⟩, Ev.call ⟨0, 0, 13, 0⟩ false,
          Ev.read ⟨0, 0, 13, 0⟩, Ev.leaf ⟨0, -50, 0⟩ ⟨0, 100, 0⟩]) := by
    rw [render_miss envLeaf ⟨0, 0, 13, 0⟩ [] rfl rfl, h13]
  refine ⟨by rw [hr], ?_⟩
  rw [show (Render envLeaf ⟨0, 0, 13, 0⟩ []).2.1 = ([] : Cache) from by rw [hr]]
  rw [hr]
  simp


/-- C4 amended witness: a warmed zoom-5 address served twice returns the
identical bytes and the second call performs no leaf invocation. -/
theorem render_idempotent_witness :
    (Render env0 ⟨0, 0, 5, 0⟩
        ((Render env0 ⟨0, 0, 5, 0⟩ [(⟨0, 0, 5, 0⟩, tileW)]).2.1)).1 =
      (Render env0 ⟨0, 0, 5, 0⟩ [(⟨0, 0, 5, 0⟩, tileW)]).1 ∧
    ((Render env0 ⟨0, 0, 5, 0⟩
        ((Render env0 ⟨0, 0, 5, 0⟩ [(⟨0, 0, 5, 0⟩, tileW)]).2.1)).2.2).filter
        Ev.isLeaf = [] :=
  ⟨(render_idempotent env0 ⟨0, 0, 5, 0⟩ [(⟨0, 0, 5, 0⟩, tileW)]).1,
   (render_idempotent env0 ⟨0, 0, 5, 0⟩ [(⟨0, 0, 5, 0⟩, tileW)]).2 rfl
     (by decide) tileW.Data
     (by rw [render_hit env0 ⟨0, 0, 5, 0⟩ _ tileW rfl
       (cacheFind_cons_self [] ⟨0, 0, 5, 0⟩ tileW)])⟩

/-- Pixel of a quadrant draw outside the rectangle: untouched. -/
theorem drawQuadrant_px_out (env : Env) (dst : Img)
    (x0 y0 x1 y1 x y : Int) (child : Option Img)
    (h : ¬(x0 ≤ x ∧ x < x1 ∧ y0 ≤ y ∧ y < y1)) :
    (drawQuadrant env dst ⟨x0, y0, x1, y1⟩ child).px x y = dst.px x y := by
  cases child with
  | none => rfl
  | some u => exact if_neg h

/-- Pixel of a quadrant draw inside the rectangle for a non-empty child:
the downsampled child's pixel, origin-aligned. -/
theorem drawQuadrant_px_some (env : Env) (dst : Img)
    (x0 y0 x1 y1 x y : Int) (u : Img)
    (h : x0 ≤ x ∧ x < x1 ∧ y0 ≤ y ∧ y < y1) :
    (drawQuadrant env dst ⟨x0, y0, x1, y1⟩ (some u)).px x y =
      (env.resize128 u).px (x - x0) (y - y0) := by
  simp only [drawQuadrant, drawSrc]
  rw [if_pos h]

/-- Pixel of a quadrant draw with an empty child: untouched. -/
theorem drawQuadrant_px_none (env : Env) (dst : Img) (r : Rect) (x y : Int) :
    (drawQuadrant env dst r none).px x y = dst.px x y := rfl

/-- C7 amended: for every pixel of a quadrant, the composed raster equals
the downsampled corresponding child when that child is non-empty, and is
zero (blank) when that child is empty — in each of the four fixed
quadrants (upperLeft top-left, upperRight top-right, lowerLeft
bottom-left, lowerRight bottom-right). -/
theorem compose_quadrants (env : Env) (ul ur ll lr : Option Img) (x y : Int)
    (hx0 : 0 ≤ x) (hx : x < 128) (hy0 : 0 ≤ y) (hy : y < 128) :
    ((composeImg env ul ur ll lr).px x y =
      match ul with
      | some u => (env.resize128 u).px x y
      | none => 0) ∧
    ((composeImg env ul ur ll lr).px (128 + x) y =
      match ur with
      | some u => (env.resize128 u).px x y
      | none => 0) ∧
    ((composeImg env ul ur ll lr).px x (128 + y) =
      match ll with
      | some u => (env.resize128 u).px x y
      | none => 0) ∧
    ((composeImg env ul ur ll lr).px (128 + x) (128 + y) =
      match lr with
      | some u => (env.resize128 u).px x y
      | none => 0) := by
  refine ⟨?_, ?_, ?_, ?_⟩ <;> simp only [composeImg]
  · rw [drawQuadrant_px_out env _ 128 128 256 256 x y lr (by omega),
      drawQuadrant_px_out env _ 0 128 128 256 x y ll (by omega),
      drawQuadrant_px_out env _ 128 0 256 128 x y ur (by omega)]
    cases ul with
    | none => rfl
    | some u =>
      rw [drawQuadrant_px_some env _ 0 0 128 128 x y u ⟨hx0, hx, hy0, hy⟩]
      have e1 : x - (0 : Int) = x := by omega
      have e2 : y - (0 : Int) = y := by omega
      rw [e1, e2]
  · rw [drawQuadrant_px_out env _ 128 128 256 256 (128 + x) y lr (by omega),
      drawQuadrant_px_out env _ 0 128 128 256 (128 + x) y ll (by omega)]
    cases ur with
    | none =>
      rw [drawQuadrant_px_none env _ ⟨128, 0, 256, 128⟩ (128 + x) y,
        drawQuadrant_px_out env _ 0 0 128 128 (128 + x) y ul (by omega)]
      rfl
    | some u =>
      rw [drawQuadrant_px_some env _ 128 0 256 128 (128 + x) y u
        ⟨by omega, by omega, by omega, by omega⟩]
      have e1 : 128 + x - (128 : Int) = x := by omega
      have e2 : y - (0 : Int) = y := by omega
      rw [e1, e2]
  · rw [drawQuadrant_px_out env _ 128 128 256 256 x (128 + y) lr (by omega)]
    cases ll with
    | none =>
      rw [drawQuadrant_px_none env _ ⟨0, 128, 128, 256⟩ x (128 + y),
        drawQuadrant_px_out env _ 128 0 256 128 x (128 + y) ur (by omega),
        drawQuadrant_px_out env _ 0 0 128 128 x (128 + y) ul (by omega)]
      rfl
    | some u =>
      rw [drawQuadrant_px_some env _ 0 128 128 256 x (128 + y) u
        ⟨by omega, by omega, by omega, by omega⟩]
      have e1 : x - (0 : Int) = x := by omega
      have e2 : 128 + y - (128 : Int) = y := by omega
      rw [e1, e2]
  · cases lr with
    | none =>
      rw [drawQuadrant_px_none env _ ⟨128, 128, 256, 256⟩ (128 + x) (128 + y),
        drawQuadrant_px_out env _ 0 128 128 256 (128 + x) (128 + y) ll (by omega),
        drawQuadrant_px_out env _ 128 0 256 128 (128 + x) (128 + y) ur (by omega),
        drawQuadrant_px_out env _ 0 0 128 128 (128 + x) (128 + y) ul (by omega)]
      rfl
    | some u =>
      rw [drawQuadrant_px_some env _ 128 128 256 256 (128 + x) (128 + y) u
        ⟨by omega, by omega, by omega, by omega⟩]
      have e1 : 128 + x - (128 : Int) = x := by omega
      have e2 : 128 + y - (128 : Int) = y := by omega
      rw [e1, e2]



/-- C7 counterexample: composing a non-empty but all-transparent upper-left
child (exactly what a cached all-blank composite decodes to) yields a
blank top-left quadrant although the child is not empty — a blank quadrant
does not imply an empty child, refuting the claimed exact correspondence. -/
theorem compose_blank_quadrant_counterexample :
    quadrantBlank (composeImg envC7 (some newNRGBA) none none none) 0 0 ∧
      some newNRGBA ≠ (none : Option Img) := by
  constructor
  · intro x y hx0 hx hy0 hy
    have e1 : (0 : Int) + x = x := by omega
    have e2 : (0 : Int) + y = y := by omega
    rw [e1, e2]
    simp only [composeImg]
    rw [drawQuadrant_px_none envC7 _ ⟨128, 128, 256, 256⟩ x y,
      drawQuadrant_px_none envC7 _ ⟨0, 128, 128, 256⟩ x y,
      drawQuadrant_px_none envC7 _ ⟨128, 0, 256, 128⟩ x y,
      drawQuadrant_px_some envC7 _ 0 0 128 128 x y newNRGBA ⟨hx0, hx, hy0, hy⟩]
    rfl
  · simp

/-- C7 amended witness: the quadrant equations evaluated at the concrete
pixel (3,5) with a non-empty upper-left child and empty other children. -/
theorem compose_quadrants_witness :
    ((composeImg env0 (some newNRGBA) none none none).px 3 5 =
      (env0.resize128 newNRGBA).px 3 5) ∧
    ((composeImg env0 (some newNRGBA) none none none).px (128 + 3) 5 = 0) ∧
    ((composeImg env0 (some newNRGBA) none none none).px 3 (128 + 5) = 0) ∧
    ((composeImg env0 (some newNRGBA) none none none).px (128 + 3) (128 + 5) = 0) :=
  compose_quadrants env0 (some newNRGBA) none none none 3 5
    (by decide) (by decide) (by decide) (by decide)

end Mapserver
